import Mathlib

/-!
Verification of the Drishti frontend (arihkot/drishti): a shallow embedding of
the TypeScript data model (frontend/src/types/index.ts), the Zustand store
(frontend/src/stores/useStore.ts), the mock-data helpers
(frontend/src/data/mockData.ts), the typed API client
(frontend/src/api/client.ts) and the map/sidebar rendering logic
(frontend/src/components/MapView.tsx, Sidebar.tsx), together with theorems
about the behaviour of these functions.  Backend Python services
(comparator, geodetic measurement, plot-update endpoint) are not part of the
frontend sources; where a property depends on them they are modelled from the
specification and marked as such in their doc comments.

Numbers (TypeScript `number`) are embedded as rationals; integer ids and
counts as `Int`/`Nat`; `T | null` as `Option`.
-/

namespace Drishti

/-! ## Data model (frontend/src/types/index.ts) -/

/-- The `PlotCategory` union type (types/index.ts line 165):
`"plot" | "road" | "open_land" | "building" | "infrastructure" | "other"`. -/
inductive PlotCategory where
  | plot
  | road
  | open_land
  | building
  | infrastructure
  | other
deriving DecidableEq, Repr

/-- The `DeviationType` union type (types/index.ts lines 156-161). -/
inductive DeviationType where
  | ENCROACHMENT
  | UNAUTHORIZED_DEVELOPMENT
  | VACANT
  | BOUNDARY_MISMATCH
  | COMPLIANT
deriving DecidableEq, Repr

/-- The string literal carried by each member of the `DeviationType` union. -/
def DeviationType.toStr : DeviationType → String
  | .ENCROACHMENT => "ENCROACHMENT"
  | .UNAUTHORIZED_DEVELOPMENT => "UNAUTHORIZED_DEVELOPMENT"
  | .VACANT => "VACANT"
  | .BOUNDARY_MISMATCH => "BOUNDARY_MISMATCH"
  | .COMPLIANT => "COMPLIANT"

/-- The `Severity` union type (types/index.ts line 163):
`"low" | "medium" | "high" | "critical"`. -/
inductive Severity where
  | low
  | medium
  | high
  | critical
deriving DecidableEq, Repr

/-- The string literal carried by each member of the `Severity` union. -/
def Severity.toStr : Severity → String
  | .low => "low"
  | .medium => "medium"
  | .high => "high"
  | .critical => "critical"

/-- A JSON coordinate array as it appears in `GeoJSONGeometry.coordinates`
(types/index.ts lines 14-17): an arbitrarily nested array of numbers
(`number[] | number[][] | number[][][] | number[][][][]`). -/
inductive CoordTree where
  | num (q : ℚ)
  | arr (elems : List CoordTree)

/-- `GeoJSONGeometry` (types/index.ts lines 14-17). -/
structure GeoJSONGeometry where
  type : String
  coordinates : CoordTree

/-- `Deviation` (types/index.ts lines 122-132).  `details` maps a JSON object
(`Record<string, unknown> | null`) to an association list. -/
structure Deviation where
  id : Int
  plot_id : Option Int
  deviation_type : String
  severity : String
  deviation_area_sqm : Option ℚ
  deviation_geometry : Option GeoJSONGeometry
  details : Option (List (String × String))
  description : Option String
  created_at : String

/-- `ComparisonResult.summary` (types/index.ts lines 135-146). -/
structure ComparisonSummary where
  total : Nat
  total_detected : Nat
  total_basemap : Nat
  compliant : Nat
  encroachment : Nat
  boundary_mismatch : Nat
  vacant : Nat
  unauthorized : Nat
  unmatched_detected : Nat
  unmatched_basemap : Nat
deriving DecidableEq, Repr

/-- `ComparisonResult` (types/index.ts lines 134-148). -/
structure ComparisonResult where
  summary : ComparisonSummary
  deviations : List Deviation

/-- `PlotData` (types/index.ts lines 69-83). -/
structure PlotData where
  id : Int
  label : String
  category : String
  geometry : GeoJSONGeometry
  area_sqm : Option ℚ
  area_sqft : Option ℚ
  perimeter_m : Option ℚ
  color : String
  confidence : Option ℚ
  is_active : Bool
  created_at : String

/-- `Project` (types/index.ts lines 54-67), restricted to the fields the
store logic under verification reads (`id`, `bbox`, `zoom`, `name`). -/
structure Project where
  id : Int
  name : String
  bbox : Option (List ℚ)
  zoom : Int
deriving DecidableEq, Repr

/-! ## Karma score (frontend/src/data/mockData.ts lines 141-169) -/

/-- The argument record of `calculateKarmaScore` (mockData.ts lines 141-148). -/
structure KarmaInput where
  totalDues : ℚ
  monthlyRent : ℚ
  leaseStatus : String
  paymentStatus : String
  complianceStatus : String
  utilizationStatus : String

/-- mockData.ts line 154:
`const monthsOverdue = plot.monthlyRent > 0 ? plot.totalDues / plot.monthlyRent : 0;`. -/
def monthsOverdue (totalDues monthlyRent : ℚ) : ℚ :=
  if 0 < monthlyRent then totalDues / monthlyRent else 0

/-- `calculateKarmaScore` (mockData.ts lines 141-169), translated clause by
clause; the final line is `Math.max(0, Math.min(100, score))`. -/
def calculateKarmaScore (plot : KarmaInput) : Int :=
  let score0 : Int := 100
  let score1 : Int :=
    if plot.paymentStatus = "defaulter" then score0 - 40
    else if plot.paymentStatus = "overdue" then score0 - 20
    else score0
  let m := monthsOverdue plot.totalDues plot.monthlyRent
  let score2 : Int :=
    if 12 < m then score1 - 25
    else if 6 < m then score1 - 15
    else if 3 < m then score1 - 8
    else score1
  let score3 : Int :=
    if plot.leaseStatus = "terminated" then score2 - 15
    else if plot.leaseStatus = "expired" then score2 - 10
    else score2
  let score4 : Int :=
    if plot.complianceStatus = "non_compliant" then score3 - 10
    else if plot.complianceStatus = "under_review" then score3 - 5
    else score3
  let score5 : Int :=
    if plot.utilizationStatus = "vacant" then score4 - 10
    else if plot.utilizationStatus = "partial" then score4 - 5
    else score4
  max 0 (min 100 score5)

/-! ## Store state and transitions (frontend/src/stores/useStore.ts) -/

/-- Toast payload shown by `showToast` (useStore.ts). -/
inductive ToastType where
  | success
  | error
  | info
deriving DecidableEq, Repr

/-- The store `toast` slice: `{ message, type } | null`. -/
structure Toast where
  message : String
  type : ToastType
deriving DecidableEq, Repr

/-- The slice of the Zustand store state (useStore.ts) read or written by the
actions under verification: `toggleHideDetectedPlots`, `runAutoDetect`,
`runPromptDetect` and `loadProject`. -/
structure StoreState where
  detecting : Bool
  detectionProgress : String
  activeProject : Option Project
  projectLoading : Bool
  hideDetectedPlots : Bool
  showCsidcReference : Bool
  toast : Option Toast

/-- `toggleHideDetectedPlots` (useStore.ts lines 619-628): flips
`hideDetectedPlots`; when the new value is `true` and the CSIDC reference
overlay is off, it is switched on as well. -/
def toggleHideDetectedPlots (s : StoreState) : StoreState :=
  let newHide := !s.hideDetectedPlots
  if newHide && !s.showCsidcReference then
    { s with hideDetectedPlots := newHide, showCsidcReference := true }
  else
    { s with hideDetectedPlots := newHide }

/-- Outcome of an awaited API call: the promise either resolves with a value
or rejects with an error message. -/
inductive ApiResult (α : Type) where
  | ok (value : α)
  | err (msg : String)

/-- `AutoDetectResponse` (types/index.ts lines 95-106), restricted to the
fields `runAutoDetect` reads. -/
structure AutoDetectResponse where
  project_id : Int
  total : Nat

/-- `PromptDetectResponse` (types/index.ts lines 116-120), restricted to the
fields `runPromptDetect` reads. -/
structure PromptDetectResponse where
  project_id : Int
  total_new : Nat

/-- `loadProject` (useStore.ts lines 715-724).  The network fetch is
represented by its outcome `fetchResult`; both branches clear
`projectLoading`, the failure branch shows an error toast and leaves
`activeProject` untouched. -/
def loadProject (s : StoreState) (fetchResult : ApiResult Project) : StoreState :=
  let s1 := { s with projectLoading := true }
  match fetchResult with
  | .ok p => { s1 with activeProject := some p, projectLoading := false }
  | .err m =>
      { s1 with projectLoading := false,
                toast := some ⟨"Failed to load project: " ++ m, .error⟩ }

/-- `runAutoDetect` (useStore.ts lines 808-836).  The `api.autoDetect` call is
represented by its outcome `apiResult` and the nested `loadProject` fetch by
`loadResult`.  The `finally` block always clears `detecting` and
`detectionProgress`. -/
def runAutoDetect (s : StoreState) (apiResult : ApiResult AutoDetectResponse)
    (loadResult : ApiResult Project) : StoreState :=
  let s1 := { s with detecting := true,
                     detectionProgress := "Fetching satellite tiles..." }
  let s2 :=
    match apiResult with
    | .ok r =>
        let sa := { s1 with detectionProgress := "Detection complete!" }
        let sb := loadProject sa loadResult
        let sc := { sb with hideDetectedPlots := true, showCsidcReference := true }
        { sc with
          toast := some ⟨"Detected " ++ toString r.total ++ " boundaries", .success⟩ }
    | .err m => { s1 with toast := some ⟨"Detection failed: " ++ m, .error⟩ }
  { s2 with detecting := false, detectionProgress := "" }

/-- `runPromptDetect` (useStore.ts lines 837-859).  Returns the state
unchanged when there is no active project or the project has no bbox (the
early `return`); otherwise mirrors the try/catch/finally of the source. -/
def runPromptDetect (s : StoreState) (apiResult : ApiResult PromptDetectResponse)
    (loadResult : ApiResult Project) : StoreState :=
  match s.activeProject with
  | none => s
  | some p =>
    match p.bbox with
    | none => s
    | some _ =>
      let s1 := { s with detecting := true,
                         detectionProgress := "Running prompt detection..." }
      let s2 :=
        match apiResult with
        | .ok r =>
            let sa := loadProject s1 loadResult
            { sa with
              toast := some ⟨"Detected " ++ toString r.total_new ++ " new boundaries", .success⟩ }
        | .err m =>
            { s1 with toast := some ⟨"Prompt detection failed: " ++ m, .error⟩ }
      { s2 with detecting := false, detectionProgress := "" }

end Drishti

namespace Drishti

/-! ## Theorems: C9 and C10 -/

/-- C9: for every input record, including `monthlyRent = 0`,
`calculateKarmaScore` returns a score in the closed interval [0, 100], and
the guarded division yields 0 instead of dividing when the rent is zero. -/
theorem calculateKarmaScore_in_range (plot : KarmaInput) :
    (0 ≤ calculateKarmaScore plot ∧ calculateKarmaScore plot ≤ 100) ∧
      ∀ dues : ℚ, monthsOverdue dues 0 = 0 := by
  constructor
  · unfold calculateKarmaScore
    refine ⟨le_max_left _ _, ?_⟩
    exact max_le (by norm_num) (min_le_left _ _)
  · intro dues
    simp [monthsOverdue]

/-- C10: after a call to `toggleHideDetectedPlots` that sets
`hideDetectedPlots` to `true`, `showCsidcReference` is `true`; a call that
sets it to `false` leaves `showCsidcReference` unchanged. -/
theorem toggleHideDetectedPlots_enables_reference (s : StoreState) :
    ((toggleHideDetectedPlots s).hideDetectedPlots = true →
      (toggleHideDetectedPlots s).showCsidcReference = true) ∧
    ((toggleHideDetectedPlots s).hideDetectedPlots = false →
      (toggleHideDetectedPlots s).showCsidcReference = s.showCsidcReference) := by
  unfold toggleHideDetectedPlots
  cases h : s.hideDetectedPlots <;> cases h2 : s.showCsidcReference <;>
    simp [h, h2]

/-- Witness for C10 at a concrete store state: toggling from
`hideDetectedPlots = false, showCsidcReference = false` yields
`hideDetectedPlots = true` and the theorem then forces
`showCsidcReference = true`. -/
theorem toggleHideDetectedPlots_enables_reference_witness :
    (toggleHideDetectedPlots
        ⟨false, "", none, false, false, false, none⟩).hideDetectedPlots = true ∧
    (toggleHideDetectedPlots
        ⟨false, "", none, false, false, false, none⟩).showCsidcReference = true := by
  refine ⟨rfl, ?_⟩
  exact (toggleHideDetectedPlots_enables_reference
    ⟨false, "", none, false, false, false, none⟩).1 rfl

/-! ## Theorems: C3 (the `PlotCategory` union) -/

/-- C3 counterexample: `"open_land"` is a member of the declared
`PlotCategory` union but is none of the four values
plot / road / infrastructure / other claimed by the specification, so the
category set has more than those four values. -/
theorem plotCategory_not_four_values :
    ¬ (PlotCategory.open_land = PlotCategory.plot ∨
       PlotCategory.open_land = PlotCategory.road ∨
       PlotCategory.open_land = PlotCategory.infrastructure ∨
       PlotCategory.open_land = PlotCategory.other) := by
  decide

/-- C3 amended: every member of the declared `PlotCategory` union is one of
exactly six values: plot, road, open_land, building, infrastructure, other. -/
theorem plotCategory_six_values (c : PlotCategory) :
    c = PlotCategory.plot ∨ c = PlotCategory.road ∨
    c = PlotCategory.open_land ∨ c = PlotCategory.building ∨
    c = PlotCategory.infrastructure ∨ c = PlotCategory.other := by
  cases c <;> simp

/-! ## Theorems: C8 (detection actions reset flags and isolate failures) -/

/-- C8: whatever the outcome of the detection API call, `runAutoDetect`
finishes with `detecting = false` and `detectionProgress = ""`; on failure the
active project is unchanged and an error toast is shown.  The same holds for
`runPromptDetect` whenever it proceeds past its early-return guard (an active
project with a bbox). -/
theorem runDetect_always_resets_flags (s : StoreState)
    (ar : ApiResult AutoDetectResponse) (pr : ApiResult PromptDetectResponse)
    (lr : ApiResult Project) (p : Project) (bb : List ℚ) :
    ((runAutoDetect s ar lr).detecting = false ∧
     (runAutoDetect s ar lr).detectionProgress = "" ∧
     (∀ m, ar = .err m →
        (runAutoDetect s ar lr).activeProject = s.activeProject ∧
        (runAutoDetect s ar lr).toast = some ⟨"Detection failed: " ++ m, .error⟩)) ∧
    (s.activeProject = some p → p.bbox = some bb →
      ((runPromptDetect s pr lr).detecting = false ∧
       (runPromptDetect s pr lr).detectionProgress = "" ∧
       (∀ m, pr = .err m →
          (runPromptDetect s pr lr).activeProject = s.activeProject ∧
          (runPromptDetect s pr lr).toast =
            some ⟨"Prompt detection failed: " ++ m, .error⟩))) := by
  constructor
  · refine ⟨?_, ?_, ?_⟩
    · cases ar <;> rfl
    · cases ar <;> rfl
    · intro m hm
      subst hm
      exact ⟨rfl, rfl⟩
  · intro hp hb
    have hrun : runPromptDetect s pr lr =
        { (match pr with
           | .ok r =>
              let sa := loadProject
                { s with detecting := true,
                         detectionProgress := "Running prompt detection..." } lr
              { sa with
                toast := some ⟨"Detected " ++ toString r.total_new ++
                  " new boundaries", .success⟩ }
           | .err m =>
              { s with detecting := true,
                       detectionProgress := "Running prompt detection...",
                       toast :=
                         some ⟨"Prompt detection failed: " ++ m, .error⟩ }) with
          detecting := false, detectionProgress := "" } := by
      unfold runPromptDetect
      rw [hp]
      simp only []
      rw [hb]
    refine ⟨?_, ?_, ?_⟩
    · rw [hrun]
    · rw [hrun]
    · intro m hm
      subst hm
      rw [hrun]
      exact ⟨rfl, rfl⟩

/-- Witness for C8 at a concrete state and outcomes: a failing prompt
detection on a project with a bbox resets the flags, keeps the active
project, and leaves an error toast. -/
theorem runDetect_always_resets_flags_witness :
    (⟨true, "x", some ⟨7, "P", some [0, 0, 1, 1], 18⟩, false, false, false,
        none⟩ : StoreState).activeProject = some ⟨7, "P", some [0, 0, 1, 1], 18⟩ ∧
    (Project.mk 7 "P" (some [0, 0, 1, 1]) 18).bbox = some [0, 0, 1, 1] ∧
    (runPromptDetect
      ⟨true, "x", some ⟨7, "P", some [0, 0, 1, 1], 18⟩, false, false, false, none⟩
      (.err "boom") (.ok ⟨7, "P", some [0, 0, 1, 1], 18⟩)).detecting = false ∧
    (runAutoDetect
      ⟨true, "x", some ⟨7, "P", some [0, 0, 1, 1], 18⟩, false, false, false, none⟩
      (.err "boom") (.ok ⟨7, "P", some [0, 0, 1, 1], 18⟩)).activeProject
      = some ⟨7, "P", some [0, 0, 1, 1], 18⟩ := by
  have h := runDetect_always_resets_flags
    ⟨true, "x", some ⟨7, "P", some [0, 0, 1, 1], 18⟩, false, false, false, none⟩
    (.err "boom") (.err "boom") (.ok ⟨7, "P", some [0, 0, 1, 1], 18⟩)
    ⟨7, "P", some [0, 0, 1, 1], 18⟩ [0, 0, 1, 1]
  refine ⟨rfl, rfl, (h.2 rfl rfl).1, ?_⟩
  exact (h.1.2.2 "boom" rfl).1

/-! ## Detect-button bbox computation (Sidebar.tsx lines 181-219) -/

/-- The base-case test of `flattenCoords` (Sidebar.tsx lines 189-194):
`Array.isArray(arr) && arr.length >= 2 && typeof arr[0] === "number"`. -/
def pairLike (l : List CoordTree) : Bool :=
  decide (2 ≤ l.length) &&
    (match l with
     | CoordTree.num _ :: _ => true
     | _ => false)

mutual

/-- `flattenCoords` (Sidebar.tsx lines 188-200): deep-flattens a nested
coordinate array into the list of its `[lon, lat]` pairs.  An array whose
first element is a number and whose length is at least 2 is returned as a
single pair; any other array is flat-mapped recursively; a bare number
yields nothing. -/
def flattenCoords : CoordTree → List (List CoordTree)
  | CoordTree.num _ => []
  | CoordTree.arr l => if pairLike l then [l] else flattenList l

/-- The `arr.flatMap((item) => flattenCoords(item))` branch of
`flattenCoords` (Sidebar.tsx line 197). -/
def flattenList : List CoordTree → List (List CoordTree)
  | [] => []
  | t :: ts => flattenCoords t ++ flattenList ts

end

/-- Numeric value of a coordinate entry; coordinate arrays produced by the
GeoJSON boundary hold numbers, a non-numeric entry reads as 0. -/
def coordNum : CoordTree → ℚ
  | CoordTree.num q => q
  | CoordTree.arr _ => 0

/-- `c[0]` of a coordinate pair (Sidebar.tsx line 203). -/
def pairLon : List CoordTree → ℚ
  | t :: _ => coordNum t
  | [] => 0

/-- `c[1]` of a coordinate pair (Sidebar.tsx line 204). -/
def pairLat : List CoordTree → ℚ
  | _ :: t :: _ => coordNum t
  | _ => 0

/-- `Math.min(...xs)` over a non-empty list (empty list reads as 0; the
source only applies it under an `allPairs.length > 0` guard). -/
def listMinQ : List ℚ → ℚ
  | [] => 0
  | x :: xs => xs.foldl min x

/-- `Math.max(...xs)` over a non-empty list, as for `listMinQ`. -/
def listMaxQ : List ℚ → ℚ
  | [] => 0
  | x :: xs => xs.foldl max x

/-- The bbox chosen by the detect-button click handler (Sidebar.tsx lines
184-216): when the selected area has a boundary geometry, deep-flatten its
coordinates; if that yields at least one pair, take
`[min lons, min lats, max lons, max lats]`, otherwise fall back to the map
viewport extent (`mapExtent ?? [0, 0, 0, 0]`); with no boundary at all, the
same fallback applies. -/
def computeDetectBbox (boundaryCoords : Option CoordTree)
    (mapExtent : Option (List ℚ)) : List ℚ :=
  match boundaryCoords with
  | some c =>
    let allPairs := flattenCoords c
    if 0 < allPairs.length then
      let lons := allPairs.map pairLon
      let lats := allPairs.map pairLat
      [listMinQ lons, listMinQ lats, listMaxQ lons, listMaxQ lats]
    else mapExtent.getD [0, 0, 0, 0]
  | none => mapExtent.getD [0, 0, 0, 0]

theorem foldl_min_le_init (xs : List ℚ) (a : ℚ) : xs.foldl min a ≤ a := by
  induction xs generalizing a with
  | nil => simp
  | cons x xs ih => exact le_trans (ih (min a x)) (min_le_left a x)

theorem foldl_min_le_mem (xs : List ℚ) (a x : ℚ) (hx : x ∈ xs) :
    xs.foldl min a ≤ x := by
  induction xs generalizing a with
  | nil => cases hx
  | cons y ys ih =>
    rcases List.mem_cons.mp hx with h | h
    · subst h
      exact le_trans (foldl_min_le_init ys (min a x)) (min_le_right a x)
    · exact ih (min a y) h

theorem foldl_min_mem (xs : List ℚ) (a : ℚ) : xs.foldl min a ∈ a :: xs := by
  induction xs generalizing a with
  | nil => simp
  | cons x xs ih =>
    rcases List.mem_cons.mp (ih (min a x)) with h | h
    · rcases min_choice a x with hc | hc
      · exact List.mem_cons.mpr (Or.inl (h.trans hc))
      · refine List.mem_cons.mpr (Or.inr ?_)
        show List.foldl min (min a x) xs ∈ x :: xs
        rw [h, hc]
        exact List.mem_cons_self _ _
    · exact List.mem_cons.mpr (Or.inr (List.mem_cons.mpr (Or.inr h)))

theorem foldl_max_init_le (xs : List ℚ) (a : ℚ) : a ≤ xs.foldl max a := by
  induction xs generalizing a with
  | nil => simp
  | cons x xs ih => exact le_trans (le_max_left a x) (ih (max a x))

theorem foldl_max_mem_le (xs : List ℚ) (a x : ℚ) (hx : x ∈ xs) :
    x ≤ xs.foldl max a := by
  induction xs generalizing a with
  | nil => cases hx
  | cons y ys ih =>
    rcases List.mem_cons.mp hx with h | h
    · subst h
      exact le_trans (le_max_right a x) (foldl_max_init_le ys (max a x))
    · exact ih (max a y) h

theorem foldl_max_mem (xs : List ℚ) (a : ℚ) : xs.foldl max a ∈ a :: xs := by
  induction xs generalizing a with
  | nil => simp
  | cons x xs ih =>
    rcases List.mem_cons.mp (ih (max a x)) with h | h
    · rcases max_choice a x with hc | hc
      · exact List.mem_cons.mpr (Or.inl (h.trans hc))
      · refine List.mem_cons.mpr (Or.inr ?_)
        show List.foldl max (max a x) xs ∈ x :: xs
        rw [h, hc]
        exact List.mem_cons_self _ _
    · exact List.mem_cons.mpr (Or.inr (List.mem_cons.mpr (Or.inr h)))

theorem listMinQ_le (l : List ℚ) (x : ℚ) (hx : x ∈ l) : listMinQ l ≤ x := by
  cases l with
  | nil => cases hx
  | cons y ys =>
    rcases List.mem_cons.mp hx with h | h
    · rw [h]
      exact foldl_min_le_init ys y
    · exact foldl_min_le_mem ys y x h

theorem le_listMaxQ (l : List ℚ) (x : ℚ) (hx : x ∈ l) : x ≤ listMaxQ l := by
  cases l with
  | nil => cases hx
  | cons y ys =>
    rcases List.mem_cons.mp hx with h | h
    · rw [h]
      exact foldl_max_init_le ys y
    · exact foldl_max_mem_le ys y x h

theorem listMinQ_mem (l : List ℚ) (h : l ≠ []) : listMinQ l ∈ l := by
  cases l with
  | nil => exact absurd rfl h
  | cons y ys => exact foldl_min_mem ys y

theorem listMaxQ_mem (l : List ℚ) (h : l ≠ []) : listMaxQ l ∈ l := by
  cases l with
  | nil => exact absurd rfl h
  | cons y ys => exact foldl_max_mem ys y

/-! ## Theorems: C6 (detect bbox is the axis-aligned bounding box) -/

/-- C6: when the selected area boundary yields at least one coordinate pair,
the bbox passed to auto-detection is
`[min lons, min lats, max lons, max lats]` over all deep-flattened pairs — an
axis-aligned bounding box enclosing every pair, with each bound attained by
some pair; when the boundary yields no pairs (or there is no boundary), the
current map viewport extent is used instead. -/
theorem computeDetectBbox_is_aabb (c : CoordTree) (e : List ℚ) :
    (flattenCoords c ≠ [] →
      (computeDetectBbox (some c) (some e) =
          [listMinQ ((flattenCoords c).map pairLon),
           listMinQ ((flattenCoords c).map pairLat),
           listMaxQ ((flattenCoords c).map pairLon),
           listMaxQ ((flattenCoords c).map pairLat)] ∧
       (∀ p ∈ flattenCoords c,
          listMinQ ((flattenCoords c).map pairLon) ≤ pairLon p ∧
          pairLon p ≤ listMaxQ ((flattenCoords c).map pairLon) ∧
          listMinQ ((flattenCoords c).map pairLat) ≤ pairLat p ∧
          pairLat p ≤ listMaxQ ((flattenCoords c).map pairLat)) ∧
       listMinQ ((flattenCoords c).map pairLon) ∈ (flattenCoords c).map pairLon ∧
       listMaxQ ((flattenCoords c).map pairLon) ∈ (flattenCoords c).map pairLon ∧
       listMinQ ((flattenCoords c).map pairLat) ∈ (flattenCoords c).map pairLat ∧
       listMaxQ ((flattenCoords c).map pairLat) ∈ (flattenCoords c).map pairLat)) ∧
    (flattenCoords c = [] → computeDetectBbox (some c) (some e) = e) ∧
    computeDetectBbox none (some e) = e := by
  refine ⟨?_, ?_, rfl⟩
  · intro hne
    have hlen : 0 < (flattenCoords c).length := List.length_pos.mpr hne
    have hmapne : (flattenCoords c).map pairLon ≠ [] := by
      simpa using hne
    have hmapne2 : (flattenCoords c).map pairLat ≠ [] := by
      simpa using hne
    refine ⟨?_, ?_, ?_, ?_, ?_, ?_⟩
    · simp only [computeDetectBbox, if_pos hlen]
    · intro p hp
      exact ⟨listMinQ_le _ _ (List.mem_map_of_mem pairLon hp),
             le_listMaxQ _ _ (List.mem_map_of_mem pairLon hp),
             listMinQ_le _ _ (List.mem_map_of_mem pairLat hp),
             le_listMaxQ _ _ (List.mem_map_of_mem pairLat hp)⟩
    · exact listMinQ_mem _ hmapne
    · exact listMaxQ_mem _ hmapne
    · exact listMinQ_mem _ hmapne2
    · exact listMaxQ_mem _ hmapne2
  · intro hempty
    simp [computeDetectBbox, hempty]

/-- Witness for C6 at a concrete boundary: a polygon ring with vertices
(3, 4) and (1, 2) yields at least one pair, and the computed bbox is
[1, 2, 3, 4]; with no pairs, the viewport extent is returned. -/
theorem computeDetectBbox_is_aabb_witness :
    flattenCoords (CoordTree.arr [CoordTree.arr [CoordTree.arr [CoordTree.num 3,
        CoordTree.num 4], CoordTree.arr [CoordTree.num 1, CoordTree.num 2]]]) ≠ [] ∧
    computeDetectBbox (some (CoordTree.arr [CoordTree.arr [CoordTree.arr
        [CoordTree.num 3, CoordTree.num 4], CoordTree.arr [CoordTree.num 1,
        CoordTree.num 2]]])) (some [9, 9, 9, 9]) = [1, 2, 3, 4] ∧
    flattenCoords (CoordTree.arr []) = [] ∧
    computeDetectBbox (some (CoordTree.arr [])) (some [9, 9, 9, 9]) = [9, 9, 9, 9] := by
  have hne : flattenCoords (CoordTree.arr [CoordTree.arr [CoordTree.arr
      [CoordTree.num 3, CoordTree.num 4], CoordTree.arr [CoordTree.num 1,
      CoordTree.num 2]]]) ≠ [] := by
    simp [flattenCoords, flattenList, pairLike]
  have hemp : flattenCoords (CoordTree.arr []) = [] := by
    simp [flattenCoords, flattenList, pairLike]
  have h1 := (computeDetectBbox_is_aabb (CoordTree.arr [CoordTree.arr
      [CoordTree.arr [CoordTree.num 3, CoordTree.num 4], CoordTree.arr
      [CoordTree.num 1, CoordTree.num 2]]]) [9, 9, 9, 9]).1 hne
  have h2 := (computeDetectBbox_is_aabb (CoordTree.arr []) [9, 9, 9, 9]).2.1 hemp
  refine ⟨hne, ?_, hemp, h2⟩
  rw [h1.1]
  simp [flattenCoords, flattenList, pairLike, pairLon, pairLat, coordNum,
    listMinQ, listMaxQ]
  norm_num

/-! ## Comparison summary cards (Sidebar.tsx lines 533-542) -/

/-- The eight summary cards rendered by `ComparePanel` after a comparison,
as (label, value) pairs in source order (Sidebar.tsx lines 534-541). -/
def summaryCards (s : ComparisonSummary) : List (String × Nat) :=
  [("Total Detected", s.total_detected),
   ("Total Basemap", s.total_basemap),
   ("Compliant", s.compliant),
   ("Encroachment", s.encroachment),
   ("Boundary Mismatch", s.boundary_mismatch),
   ("Vacant", s.vacant),
   ("Unauthorized", s.unauthorized),
   ("Unmatched", s.unmatched_detected)]

/-! ## Theorems: C2 (unmatched counts in the visible summary) -/

/-- C2 counterexample: for a summary whose `unmatched_basemap` count is 7
(all other counts 0), no rendered summary card carries the value 7 — the
unmatched-basemap direction is omitted from the user-visible cards, which
render only `unmatched_detected`. -/
theorem comparePanel_omits_unmatched_basemap :
    (ComparisonSummary.mk 0 0 0 0 0 0 0 0 0 7).unmatched_basemap = 7 ∧
    ∀ card ∈ summaryCards (ComparisonSummary.mk 0 0 0 0 0 0 0 0 0 7),
      card.2 ≠ 7 := by
  decide

/-- C2 amended: the comparison result data carries unmatched counts in both
directions, but the user-visible summary cards display exactly the eight
values total_detected, total_basemap, compliant, encroachment,
boundary_mismatch, vacant, unauthorized and unmatched_detected — the
unmatched-basemap count is not among the rendered cards. -/
theorem comparePanel_renders_unmatched_detected_only (s : ComparisonSummary) :
    (summaryCards s).map Prod.snd =
      [s.total_detected, s.total_basemap, s.compliant, s.encroachment,
       s.boundary_mismatch, s.vacant, s.unauthorized, s.unmatched_detected] ∧
    ("Unmatched", s.unmatched_detected) ∈ summaryCards s := by
  exact ⟨rfl, by simp [summaryCards]⟩

/-! ## Deviation construction and the map overlay consumer -/

/-- Modelled from the spec: `backend/services/comparator.py`, the producer of
`Deviation` records, is not under src/.  Per the spec data model, every
Deviation is created with a deviation type from the `DeviationType` union, a
severity from the `Severity` union, a nullable plot id and a nullable
deviation geometry. -/
def mkDeviation (i : Int) (pid : Option Int) (t : DeviationType)
    (sev : Severity) (area : Option ℚ) (geom : Option GeoJSONGeometry)
    (desc : Option String) : Deviation :=
  { id := i, plot_id := pid, deviation_type := t.toStr, severity := sev.toStr,
    deviation_area_sqm := area, deviation_geometry := geom, details := none,
    description := desc, created_at := "" }

/-- The map feature built for one deviation by the overlay effect
(MapView.tsx lines 382-395): id `dev-` followed by the deviation id, the
geometry, and the type/severity properties. -/
structure DeviationFeature where
  fid : String
  geometry : GeoJSONGeometry
  deviation_type : String
  severity : String

/-- `geojsonFormat.readFeature` applied to one deviation (MapView.tsx lines
382-392): fails on a missing geometry, otherwise yields the feature. -/
def readDeviationFeature (d : Deviation) : Except String DeviationFeature :=
  match d.deviation_geometry with
  | none => Except.error "missing geometry"
  | some g =>
      Except.ok { fid := "dev-" ++ toString d.id, geometry := g,
                  deviation_type := d.deviation_type, severity := d.severity }

/-- The deviation overlay loop (MapView.tsx lines 379-396):
`if (!dev.deviation_geometry) continue;` skips records with a null geometry
before attempting to read them as features. -/
def renderDeviationOverlay : List Deviation → Except String (List DeviationFeature)
  | [] => Except.ok []
  | d :: ds =>
    if d.deviation_geometry.isSome then
      match readDeviationFeature d with
      | Except.error m => Except.error m
      | Except.ok f =>
          match renderDeviationOverlay ds with
          | Except.error m => Except.error m
          | Except.ok fs => Except.ok (f :: fs)
    else renderDeviationOverlay ds

theorem renderDeviationOverlay_spec (ds : List Deviation) :
    ∃ fs, renderDeviationOverlay ds = Except.ok fs ∧
      fs.length = (ds.filter (fun d => d.deviation_geometry.isSome)).length := by
  induction ds with
  | nil => exact ⟨[], rfl, rfl⟩
  | cons d ds ih =>
    obtain ⟨fs, hok, hlen⟩ := ih
    cases hgeom : d.deviation_geometry with
    | none =>
      refine ⟨fs, ?_, ?_⟩
      · simp [renderDeviationOverlay, hgeom, hok]
      · simp [List.filter_cons, hgeom, hlen]
    | some g =>
      refine ⟨{ fid := "dev-" ++ toString d.id, geometry := g,
                deviation_type := d.deviation_type,
                severity := d.severity } :: fs, ?_, ?_⟩
      · simp [renderDeviationOverlay, readDeviationFeature, hgeom, hok]
      · simp [List.filter_cons, hgeom, hlen]

/-! ## Theorems: C4 (Deviation shape, nullable geometry tolerated) -/

/-- C4: every produced Deviation record carries a deviation type from the
five-member union and a severity from the four-member union, together with
its (nullable) plot id and (nullable) geometry unchanged; and the overlay
consumer never fails on a null geometry — it renders exactly the deviations
whose geometry is present, skipping the rest. -/
theorem deviation_shape_and_null_geometry_tolerated (i : Int)
    (pid : Option Int) (t : DeviationType) (sev : Severity) (area : Option ℚ)
    (geom : Option GeoJSONGeometry) (desc : Option String)
    (ds : List Deviation) :
    ((mkDeviation i pid t sev area geom desc).deviation_type = "ENCROACHMENT" ∨
     (mkDeviation i pid t sev area geom desc).deviation_type = "BOUNDARY_MISMATCH" ∨
     (mkDeviation i pid t sev area geom desc).deviation_type = "VACANT" ∨
     (mkDeviation i pid t sev area geom desc).deviation_type = "UNAUTHORIZED_DEVELOPMENT" ∨
     (mkDeviation i pid t sev area geom desc).deviation_type = "COMPLIANT") ∧
    ((mkDeviation i pid t sev area geom desc).severity = "low" ∨
     (mkDeviation i pid t sev area geom desc).severity = "medium" ∨
     (mkDeviation i pid t sev area geom desc).severity = "high" ∨
     (mkDeviation i pid t sev area geom desc).severity = "critical") ∧
    (mkDeviation i pid t sev area geom desc).plot_id = pid ∧
    (mkDeviation i pid t sev area geom desc).deviation_geometry = geom ∧
    (∃ fs, renderDeviationOverlay ds = Except.ok fs ∧
      fs.length = (ds.filter (fun d => d.deviation_geometry.isSome)).length) := by
  refine ⟨?_, ?_, rfl, rfl, renderDeviationOverlay_spec ds⟩
  · cases t <;> simp [mkDeviation, DeviationType.toStr]
  · cases sev <;> simp [mkDeviation, Severity.toStr]

/-! ## Geodetic measurement of a plot -/

/-- Modelled from the spec: the GeodeticMeasurer
(`backend/services/vectorizer.py`) is not under src/.  Per the spec it
computes the ellipsoid area in sqm independent of winding (absolute value),
converts to sqft via the fixed constant 10.7639, and stores both together
with the perimeter on the plot. -/
def applyMeasurement (p : PlotData) (rawAreaSqm perimeterM : ℚ) : PlotData :=
  { p with area_sqm := some |rawAreaSqm|,
           area_sqft := some (|rawAreaSqm| * (107639 / 10000 : ℚ)),
           perimeter_m := some perimeterM }

/-! ## Theorems: C5 (sqm to sqft conversion) -/

/-- C5: after measurement, a plot carries both area fields, and
`area_sqft` equals `area_sqm` multiplied by the fixed constant
10.7639 = 107639/10000. -/
theorem measured_area_sqft_conversion (p : PlotData) (a m : ℚ) :
    ∃ x, (applyMeasurement p a m).area_sqm = some x ∧
      (applyMeasurement p a m).area_sqft = some (x * (107639 / 10000 : ℚ)) :=
  ⟨|a|, rfl, rfl⟩

/-! ## Saving a boundary edit (useStore.ts lines 787-800, client.ts updatePlot) -/

/-- The body type accepted by the plot-update endpoint
(`api/client.ts` lines 502-511): optional label, category, color and
geometry. -/
structure UpdatePlotPayload where
  label : Option String
  category : Option String
  color : Option String
  geometry : Option GeoJSONGeometry

/-- The payload `saveEditing` sends (useStore.ts lines 791-793):
`{ geometry: editingGeometry }` and nothing else. -/
def saveEditingPayload (g : GeoJSONGeometry) : UpdatePlotPayload :=
  { label := none, category := none, color := none, geometry := some g }

/-- A stored plot row as held by the backend. -/
structure ServerPlot where
  id : Int
  label : String
  category : String
  color : String
  geometry : GeoJSONGeometry

/-- A stored project row: scope fields (bbox, center, zoom) plus its plots. -/
structure ServerProject where
  id : Int
  bbox : Option (List ℚ)
  center_lon : Option ℚ
  center_lat : Option ℚ
  zoom : Int
  plots : List ServerPlot

/-- Modelled from the spec: `backend/routers/projects.py` (the
`PUT /api/projects/{id}/plots/{plot_id}` handler) is not under src/.  Per
the README API reference it updates a plot (geometry, label, category), and
per spec §3 edits mutate plot geometry, not project scope: only the
addressed plot's fields present in the payload change. -/
def applyPlotUpdate (pl : ServerPlot) (d : UpdatePlotPayload) : ServerPlot :=
  { pl with label := d.label.getD pl.label,
            category := d.category.getD pl.category,
            color := d.color.getD pl.color,
            geometry := d.geometry.getD pl.geometry }

/-- The plot-update endpoint over the project table (see `applyPlotUpdate`). -/
def updatePlotEndpoint (projects : List ServerProject) (projectId plotId : Int)
    (d : UpdatePlotPayload) : List ServerProject :=
  projects.map fun pr =>
    if pr.id = projectId then
      { pr with plots := pr.plots.map fun pl =>
          if pl.id = plotId then applyPlotUpdate pl d else pl }
    else pr

/-- The scope fields of a project row: id, bbox, center and zoom. -/
def projectScope (pr : ServerProject) : Int × Option (List ℚ) × Option ℚ × Option ℚ × Int :=
  (pr.id, pr.bbox, pr.center_lon, pr.center_lat, pr.zoom)

/-! ## Theorems: C7 (boundary save touches geometry only) -/

/-- C7: saving a boundary edit sends a payload holding only the new
geometry (label, category and color are absent), and applying it through the
plot-update endpoint leaves every project's scope fields — id, bbox,
center and zoom — unchanged. -/
theorem saveEditing_preserves_project_scope (projects : List ServerProject)
    (projectId plotId : Int) (g : GeoJSONGeometry) :
    (saveEditingPayload g).label = none ∧
    (saveEditingPayload g).category = none ∧
    (saveEditingPayload g).color = none ∧
    (saveEditingPayload g).geometry = some g ∧
    (updatePlotEndpoint projects projectId plotId
        (saveEditingPayload g)).map projectScope =
      projects.map projectScope := by
  refine ⟨rfl, rfl, rfl, rfl, ?_⟩
  induction projects with
  | nil => rfl
  | cons pr rest ih =>
    simp only [updatePlotEndpoint, List.map_cons] at ih ⊢
    rw [ih]
    by_cases h : pr.id = projectId <;> simp [h, projectScope]

/-! ## The comparison engine output -/

/-- Classification outcome for one matched detected/reference pair
(spec §4.8 rules 1-3). -/
inductive MatchOutcome where
  | compliant
  | encroachment
  | boundaryMismatch
deriving DecidableEq, Repr

/-- The deviation type reported for a matched pair's outcome. -/
def MatchOutcome.toDeviationType : MatchOutcome → DeviationType
  | .compliant => DeviationType.COMPLIANT
  | .encroachment => DeviationType.ENCROACHMENT
  | .boundaryMismatch => DeviationType.BOUNDARY_MISMATCH

/-- One matched pair as classified by the engine, with its severity,
symmetric-difference geometry and area. -/
structure MatchedCase where
  plot_id : Int
  outcome : MatchOutcome
  severity : Severity
  geometry : Option GeoJSONGeometry
  area_sqm : ℚ

/-- Number of deviations of a given type in a list. -/
def countType (ds : List Deviation) (t : String) : Nat :=
  (ds.filter (fun d => d.deviation_type == t)).length

/-- Modelled from the spec: `backend/services/comparator.py` and
`backend/routers/comparison.py` are not under src/.  Per spec §4.8 the
engine emits one Deviation per classified case — one per matched pair, one
VACANT per unmatched reference plot, one UNAUTHORIZED_DEVELOPMENT per
unmatched detected plot — plus aggregate counts: total detected, total
reference, per-category counts and unmatched counts in each direction.
Severities for the unmatched classes are fixed defaults. -/
def runComparisonEngine (total_detected total_basemap : Nat)
    (matched : List MatchedCase) (unmatchedDet unmatchedBase : List Int) :
    ComparisonResult :=
  let devsMatched := matched.map fun m =>
    mkDeviation 0 (some m.plot_id) m.outcome.toDeviationType m.severity
      (some m.area_sqm) m.geometry none
  let devsVacant := unmatchedBase.map fun _ =>
    mkDeviation 0 none DeviationType.VACANT Severity.medium none none none
  let devsUnauth := unmatchedDet.map fun did =>
    mkDeviation 0 (some did) DeviationType.UNAUTHORIZED_DEVELOPMENT
      Severity.high none none none
  let deviations := devsMatched ++ devsVacant ++ devsUnauth
  { summary :=
      { total := deviations.length
        total_detected := total_detected
        total_basemap := total_basemap
        compliant := (matched.filter
          (fun m => decide (m.outcome = MatchOutcome.compliant))).length
        encroachment := (matched.filter
          (fun m => decide (m.outcome = MatchOutcome.encroachment))).length
        boundary_mismatch := (matched.filter
          (fun m => decide (m.outcome = MatchOutcome.boundaryMismatch))).length
        vacant := unmatchedBase.length
        unauthorized := unmatchedDet.length
        unmatched_detected := unmatchedDet.length
        unmatched_basemap := unmatchedBase.length }
    deviations := deviations }

theorem length_filter_map {α β : Type} (f : α → β) (p : β → Bool)
    (l : List α) :
    ((l.map f).filter p).length = (l.filter (fun a => p (f a))).length := by
  induction l with
  | nil => rfl
  | cons a l ih =>
    by_cases h : p (f a) <;> simp [List.filter_cons, h, ih]

theorem matched_outcome_filter_sum (l : List MatchedCase) :
    (l.filter (fun m => decide (m.outcome = MatchOutcome.compliant))).length +
    (l.filter (fun m => decide (m.outcome = MatchOutcome.encroachment))).length +
    (l.filter (fun m => decide (m.outcome = MatchOutcome.boundaryMismatch))).length =
      l.length := by
  induction l with
  | nil => rfl
  | cons m rest ih =>
    rcases m with ⟨p1, oc, s1, g1, a1⟩
    cases oc <;> simp [List.filter_cons] <;> omega

/-! ## Theorems: C1 (the comparison result carries the full summary) -/

/-- C1: the comparison engine delivers, alongside the deviation list, a
summary holding total detected, total reference (basemap), per-type counts
for each of the five deviation types that agree with the produced deviation
list, and unmatched counts in each direction; the per-type counts sum to
the deviation total. -/
theorem comparisonResult_summary_complete (td tb : Nat)
    (matched : List MatchedCase) (ud ub : List Int) :
    (runComparisonEngine td tb matched ud ub).summary.total_detected = td ∧
    (runComparisonEngine td tb matched ud ub).summary.total_basemap = tb ∧
    (runComparisonEngine td tb matched ud ub).summary.compliant =
      countType (runComparisonEngine td tb matched ud ub).deviations "COMPLIANT" ∧
    (runComparisonEngine td tb matched ud ub).summary.encroachment =
      countType (runComparisonEngine td tb matched ud ub).deviations "ENCROACHMENT" ∧
    (runComparisonEngine td tb matched ud ub).summary.boundary_mismatch =
      countType (runComparisonEngine td tb matched ud ub).deviations "BOUNDARY_MISMATCH" ∧
    (runComparisonEngine td tb matched ud ub).summary.vacant =
      countType (runComparisonEngine td tb matched ud ub).deviations "VACANT" ∧
    (runComparisonEngine td tb matched ud ub).summary.unauthorized =
      countType (runComparisonEngine td tb matched ud ub).deviations
        "UNAUTHORIZED_DEVELOPMENT" ∧
    (runComparisonEngine td tb matched ud ub).summary.unmatched_detected =
      ud.length ∧
    (runComparisonEngine td tb matched ud ub).summary.unmatched_basemap =
      ub.length ∧
    (runComparisonEngine td tb matched ud ub).summary.total =
      (runComparisonEngine td tb matched ud ub).deviations.length ∧
    (runComparisonEngine td tb matched ud ub).summary.compliant +
      (runComparisonEngine td tb matched ud ub).summary.encroachment +
      (runComparisonEngine td tb matched ud ub).summary.boundary_mismatch +
      (runComparisonEngine td tb matched ud ub).summary.vacant +
      (runComparisonEngine td tb matched ud ub).summary.unauthorized =
      (runComparisonEngine td tb matched ud ub).summary.total := by
  have hcount : ∀ t : String,
      countType (runComparisonEngine td tb matched ud ub).deviations t =
        (matched.filter
          (fun m => m.outcome.toDeviationType.toStr == t)).length +
        (ub.filter (fun _ => ("VACANT" == t : Bool))).length +
        (ud.filter (fun _ => ("UNAUTHORIZED_DEVELOPMENT" == t : Bool))).length := by
    intro t
    simp only [runComparisonEngine, countType, List.filter_append,
      List.length_append]
    rw [length_filter_map, length_filter_map, length_filter_map]
    rfl
  have hmatched : ∀ (t : String) (o : MatchOutcome),
      (∀ oc : MatchOutcome, (oc.toDeviationType.toStr == t) = decide (oc = o)) →
      (matched.filter (fun m => m.outcome.toDeviationType.toStr == t)).length =
        (matched.filter (fun m => decide (m.outcome = o))).length := by
    intro t o ho
    congr 1
    apply List.filter_congr
    intro m _
    exact ho m.outcome
  refine ⟨rfl, rfl, ?_, ?_, ?_, ?_, ?_, rfl, rfl, rfl, ?_⟩
  · rw [hcount, hmatched "COMPLIANT" MatchOutcome.compliant
      (by intro oc; cases oc <;> rfl)]
    simp [runComparisonEngine]
  · rw [hcount, hmatched "ENCROACHMENT" MatchOutcome.encroachment
      (by intro oc; cases oc <;> rfl)]
    simp [runComparisonEngine]
  · rw [hcount, hmatched "BOUNDARY_MISMATCH" MatchOutcome.boundaryMismatch
      (by intro oc; cases oc <;> rfl)]
    simp [runComparisonEngine]
  · rw [hcount]
    have hm : matched.filter
        (fun m => m.outcome.toDeviationType.toStr == "VACANT") = [] := by
      apply List.filter_eq_nil_iff.mpr
      intro m _
      cases hoc : m.outcome <;>
        simp [hoc, MatchOutcome.toDeviationType, DeviationType.toStr]
    rw [hm]
    simp [runComparisonEngine]
  · rw [hcount]
    have hm : matched.filter
        (fun m => m.outcome.toDeviationType.toStr ==
          "UNAUTHORIZED_DEVELOPMENT") = [] := by
      apply List.filter_eq_nil_iff.mpr
      intro m _
      cases hoc : m.outcome <;>
        simp [hoc, MatchOutcome.toDeviationType, DeviationType.toStr]
    rw [hm]
    simp [runComparisonEngine]
  · simp only [runComparisonEngine, List.length_append, List.length_map]
    have := matched_outcome_filter_sum matched
    omega

end Drishti
